import Mathlib

/-!
Verification of the RAG core of the healthcare-support-portal repository.

The definitions below are a shallow embedding of
`services/rag_service/src/rag_service/utils/embeddings.py`
(`generate_embedding`, `store_document_embeddings`, `similarity_search`,
`combine_chunks_for_context`) and of the relevant parts of
`packages/rag/src/rag_service/routers/chat.py` (`search_documents`,
the role-to-system-prompt table of `generate_ai_response`).

Modelling conventions:
* Python floats are modelled as rationals (`ℚ`); the constant `1.3` is the
  rational `13/10`.
* The database session is modelled explicitly: the embeddings/documents join
  is a list of `EmbRow`s, and functions that would execute SQL return the
  rows the query would produce.  Each `EmbRow` carries, as the field
  `similarity`, the value the SQL projection computes as
  `1 - (e.embedding_vector <=> query_vector)` for the query at hand.
* The SQL `ORDER BY similarity DESC` constrains only the similarity order;
  the relative order of equal-similarity rows is left to the engine.  We
  model one legal execution: a stable sort, which keeps equal-similarity
  rows in stored scan order.
* The OpenAI embedding call either returns a vector or raises; it is passed
  in as an `Except` value (for `generate_embedding`) or as a total function
  `String → List ℚ` whose result `[]` is the failure sentinel that
  `generate_embedding` produces on a provider error.
-/

namespace RagService

/-- One row of the `embeddings ⋈ documents` projection that the SQL query in
`similarity_search` selects (embeddings.py lines 80-94): embedding id,
document id, chunk text, chunk index, then document metadata, and the
computed `similarity` column for the query vector under consideration. -/
structure EmbRow where
  id : Nat
  document_id : Nat
  content_chunk : String
  chunk_index : Nat
  title : String
  document_type : String
  department : String
  is_sensitive : Bool
  similarity : ℚ
  deriving DecidableEq, Repr

/-- An `Embedding` ORM record as built by `store_document_embeddings`
(embeddings.py lines 45-50). -/
structure EmbeddingRecord where
  document_id : Nat
  content_chunk : String
  embedding_vector : List ℚ
  chunk_index : Nat
  deriving DecidableEq, Repr

/-- The body of `generate_embedding` (embeddings.py lines 16-27): the provider
call either produces a vector (`Except.ok`) or raises (`Except.error`); the
`except` clause prints the error and returns `[]` — an ordinary value, not a
raised exception. -/
def generate_embedding (provider : Except String (List ℚ)) : List ℚ :=
  match provider with
  | Except.ok v => v
  | Except.error _ => []

/-- The `for i, chunk in enumerate(chunks)` loop of `store_document_embeddings`
(embeddings.py lines 37-52), carrying the enumeration index `i`: a chunk whose
embedding comes back empty is skipped (`continue`); every other chunk yields a
record whose `chunk_index` is its enumeration index. -/
def storeLoop (document_id : Nat) (embed : String → List ℚ) :
    List String → Nat → List EmbeddingRecord
  | [], _ => []
  | chunk :: rest, i =>
    if (embed chunk).isEmpty then storeLoop document_id embed rest (i + 1)
    else ⟨document_id, chunk, embed chunk, i⟩ :: storeLoop document_id embed rest (i + 1)

/-- `store_document_embeddings` (embeddings.py lines 29-60).  `embed` stands
for `generate_embedding`, whose failure sentinel is `[]`; `commit_ok` models
whether `db.commit()` succeeds (the `except` branch rolls back and returns
`False`).  The result is the Python return value paired with the records this
call leaves committed for the document. -/
def store_document_embeddings (document_id : Nat) (chunks : List String)
    (embed : String → List ℚ) (commit_ok : Bool) : Bool × List EmbeddingRecord :=
  if commit_ok then (true, storeLoop document_id embed chunks 0) else (false, [])

/-- The WHERE clause of the similarity query (embeddings.py lines 93-102):
`1 - (vector <=> query) > similarity_threshold`, and — only when
`document_ids` is a non-empty list, because Python treats both `None` and `[]`
as falsy in `if document_ids:` — `document_id IN (...)`. -/
def rowEligible (similarity_threshold : ℚ) (document_ids : Option (List Nat))
    (r : EmbRow) : Bool :=
  if similarity_threshold < r.similarity then
    match document_ids with
    | some (d :: ds) => decide (r.document_id ∈ d :: ds)
    | _ => true
  else false

/-- The `ORDER BY similarity DESC` relation: `a` precedes `b` when
`b.similarity ≤ a.similarity`. -/
def simGE (a b : EmbRow) : Prop := b.similarity ≤ a.similarity

instance : DecidableRel simGE :=
  fun a b => inferInstanceAs (Decidable (b.similarity ≤ a.similarity))

instance : IsTotal EmbRow simGE := ⟨fun a b => le_total b.similarity a.similarity⟩

instance : IsTrans EmbRow simGE := ⟨fun _ _ _ h1 h2 => le_trans h2 h1⟩

/-- `similarity_search` (embeddings.py lines 62-130) after the query embedding
has been generated.  Returns `(issued, rows)` where `issued` records whether
the SQL similarity query was executed: when the query embedding is empty
(`if not query_embedding`) the function returns `[]` without touching the
store.  Otherwise the stored join rows are filtered by the WHERE clause,
ordered by `similarity DESC` (stable, see the header note on tie order) and
truncated by `LIMIT`. -/
def similarity_search (query_embedding : List ℚ) (stored : List EmbRow)
    (limit : Nat) (similarity_threshold : ℚ)
    (document_ids : Option (List Nat)) : Bool × List EmbRow :=
  if query_embedding = [] then (false, [])
  else
    (true,
      (List.insertionSort simGE
          (stored.filter (rowEligible similarity_threshold document_ids))).take limit)

/-- The `/search` endpoint body after the authorization query produced
`authorized_doc_ids` (chat.py lines 74-92): `if not authorized_doc_ids:` short
circuits to an empty response before `similarity_search` is ever called;
otherwise `similarity_search` runs with `document_ids = authorized_doc_ids`.
The Boolean of the pair again records whether the SQL similarity query was
issued. -/
def search_documents (authorized_doc_ids : List Nat) (query_embedding : List ℚ)
    (stored : List EmbRow) (limit : Nat) (similarity_threshold : ℚ) :
    Bool × List EmbRow :=
  if authorized_doc_ids = [] then (false, [])
  else similarity_search query_embedding stored limit similarity_threshold
    (some authorized_doc_ids)

/-- ASCII whitespace as recognised by Pythons `str.split()` with no
arguments. -/
def isPySpace (c : Char) : Bool :=
  c = ' ' || c = '\t' || c = '\n' || c = '\r' || c = '\x0b' || c = '\x0c'

/-- The word list produced by Pythons `chunk.split()`: maximal runs of
non-whitespace characters; leading/trailing/repeated whitespace yields no
empty words.  The second argument accumulates the current word reversed. -/
def pyWords : List Char → List Char → List (List Char)
  | [], [] => []
  | [], w => [w.reverse]
  | c :: cs, w =>
    if isPySpace c then
      if w.isEmpty then pyWords cs [] else w.reverse :: pyWords cs []
    else pyWords cs (c :: w)

/-- `len(chunk.split())`. -/
def pyWordCount (s : String) : Nat := (pyWords s.toList []).length

/-- `chunk_tokens = len(chunk.split()) * 1.3` (embeddings.py line 144), the
float factor modelled exactly as the rational `13/10`. -/
def chunkTokens (chunk : String) : ℚ := (pyWordCount chunk : ℚ) * (13 / 10)

/-- The block `f"Document: {title}\nContent: {chunk}\n---\n"` appended for an
included search result (embeddings.py line 149). -/
def contextBlock (r : EmbRow) : String :=
  "Document: " ++ r.title ++ "\nContent: " ++ r.content_chunk ++ "\n---\n"

/-- The `for result in search_results` loop of `combine_chunks_for_context`
(embeddings.py lines 139-151), carrying `current_tokens`: it breaks at the
first block whose inclusion would push the running estimate strictly over
`max_tokens`, otherwise appends the block and adds its estimate. -/
def combineLoop (max_tokens : ℚ) : List EmbRow → ℚ → List String
  | [], _ => []
  | r :: rest, current_tokens =>
    if max_tokens < current_tokens + chunkTokens r.content_chunk then []
    else contextBlock r ::
      combineLoop max_tokens rest (current_tokens + chunkTokens r.content_chunk)

/-- `combine_chunks_for_context(search_results, max_tokens)` (embeddings.py
lines 132-153): run the loop from `current_tokens = 0` and return
`"\n".join(context_parts)`. -/
def combine_chunks_for_context (search_results : List EmbRow) (max_tokens : ℚ) :
    String :=
  String.intercalate "\n" (combineLoop max_tokens search_results 0)

/-- Sum of the per-chunk token estimates of a result list. -/
def tokenSum (l : List EmbRow) : ℚ :=
  (l.map (fun r => chunkTokens r.content_chunk)).sum

/-- The `"doctor"` entry of the `system_prompts` dict (chat.py lines 183-185). -/
def doctor_prompt : String :=
  "You are an AI assistant helping a doctor in a healthcare setting. \n        Provide accurate, professional medical information based on the provided context. \n        Always remind users to verify information and consult current medical guidelines."

/-- The `"nurse"` entry of the `system_prompts` dict (chat.py lines 187-189). -/
def nurse_prompt : String :=
  "You are an AI assistant helping a nurse in a healthcare setting. \n        Provide practical, relevant information for nursing care based on the provided context. \n        Focus on procedures, patient care, and safety protocols."

/-- The `"admin"` entry of the `system_prompts` dict (chat.py lines 191-192). -/
def admin_prompt : String :=
  "You are an AI assistant helping a healthcare administrator. \n        Provide information about policies, procedures, and administrative matters based on the provided context."

/-- `system_prompts.get(user_role, system_prompts["admin"])` (chat.py line
195): the dict lookup keyed by role with the admin prompt as default. -/
def system_prompt_for (user_role : String) : String :=
  if user_role = "doctor" then doctor_prompt
  else if user_role = "nurse" then nurse_prompt
  else if user_role = "admin" then admin_prompt
  else admin_prompt

/-! Concrete rows used to evaluate the definitions at specific inputs. -/

/-- A stored row: document 7, similarity 0.9 against the query at hand. -/
def rowA : EmbRow := ⟨1, 7, "chunk text", 0, "Doc A", "policy", "cardiology", false, 9 / 10⟩

/-- A stored row of document 1 with similarity 0.9. -/
def rowB : EmbRow := ⟨2, 1, "first chunk", 0, "Doc B", "note", "", false, 9 / 10⟩

/-- A stored row of document 1 with similarity 0.8. -/
def rowC : EmbRow := ⟨3, 1, "second chunk", 1, "Doc C", "note", "", false, 8 / 10⟩

/-- A stored row of document 1 with similarity 0.5. -/
def rowD : EmbRow := ⟨4, 1, "third chunk", 2, "Doc D", "note", "", false, 5 / 10⟩

/-- Equal-similarity rows in stored order: the HIGHER document id comes first
in the table scan. -/
def rowT1 : EmbRow := ⟨5, 2, "tie one", 0, "Doc T1", "note", "", false, 9 / 10⟩

/-- Equal-similarity partner of `rowT1` with the LOWER document id, stored
second. -/
def rowT2 : EmbRow := ⟨6, 1, "tie two", 0, "Doc T2", "note", "", false, 9 / 10⟩

/-- A search result whose chunk has two words (token estimate 2.6). -/
def rowW1 : EmbRow := ⟨7, 1, "alpha beta", 0, "Doc W1", "note", "", false, 9 / 10⟩

/-- A search result whose chunk has two words (token estimate 2.6). -/
def rowW2 : EmbRow := ⟨8, 1, "gamma delta", 1, "Doc W2", "note", "", false, 8 / 10⟩

/-- A search result whose chunk text is empty: `"".split()` is `[]`, so its
token estimate is 0. -/
def rowE : EmbRow := ⟨9, 1, "", 0, "Doc E", "note", "", false, 9 / 10⟩

/-- An embedding provider that fails (returns the `[]` sentinel) exactly on
the chunk text `"beta"`. -/
def embedGap : String → List ℚ := fun c => if c = "beta" then [] else [1]

/-! ## C9 — role-to-system-prompt table -/

/-- C9: the role-to-system-instruction mapping is a closed lookup table: each
of the three fixed roles maps to its own distinct instruction string, every
other role maps to the single default (the admin prompt), and the selected
instruction is a function of the role alone. -/
theorem C9_role_table :
    (system_prompt_for "doctor" = doctor_prompt ∧
     system_prompt_for "nurse" = nurse_prompt ∧
     system_prompt_for "admin" = admin_prompt) ∧
    (doctor_prompt ≠ nurse_prompt ∧ doctor_prompt ≠ admin_prompt ∧
     nurse_prompt ≠ admin_prompt) ∧
    (∀ role : String, role ≠ "doctor" → role ≠ "nurse" → role ≠ "admin" →
      system_prompt_for role = admin_prompt) := by
  refine ⟨⟨rfl, rfl, rfl⟩, ⟨by decide, by decide, by decide⟩, ?_⟩
  intro role h1 h2 h3
  simp [system_prompt_for, h1, h2, h3]

/-- C9 witness: a role outside the table falls back to the admin prompt. -/
theorem C9_witness : system_prompt_for "receptionist" = admin_prompt :=
  C9_role_table.2.2 "receptionist" (by decide) (by decide) (by decide)

/-! ## C10 — all-chunks-failed ingestion still returns True -/

/-- C10: when the embedding call fails (returns the `[]` sentinel) for every
chunk, `store_document_embeddings` still commits and returns `True`, with zero
embedding records stored; a `True` return therefore does not imply that any
record was stored. -/
theorem C10_all_fail_returns_true (document_id : Nat) (chunks : List String)
    (embed : String → List ℚ) (h : ∀ c ∈ chunks, embed c = []) :
    store_document_embeddings document_id chunks embed true = (true, []) := by
  unfold store_document_embeddings
  suffices hgen : ∀ i : Nat, storeLoop document_id embed chunks i = [] by
    simp [hgen 0]
  intro i
  induction chunks generalizing i with
  | nil => rfl
  | cons c rest ih =>
    have hc : embed c = [] := h c (List.mem_cons_self c rest)
    have hrest : ∀ x ∈ rest, embed x = [] := fun x hx => h x (List.mem_cons_of_mem c hx)
    unfold storeLoop
    rw [hc]
    simp only [List.isEmpty_nil, if_pos]
    exact ih hrest (i + 1)

/-- C10 witness: a two-chunk document whose provider always fails yields
`(True, no records)`. -/
theorem C10_witness :
    store_document_embeddings 1 ["alpha", "beta"] (fun _ => ([] : List ℚ)) true =
      (true, []) :=
  C10_all_fail_returns_true 1 ["alpha", "beta"] (fun _ => []) (fun _ _ => rfl)

/-! ## C2 — dense chunk-index invariant -/

/-- C2: evaluation of the code at the failing input.  For chunks
`["alpha", "beta", "gamma"]` with the provider failing exactly on `"beta"`,
`store_document_embeddings` returns `True` and commits records whose chunk
indices are `[0, 2]` — a non-empty partial set with a gap at index 1,
violating the dense 0-based-sequence invariant the claim states. -/
theorem C2_gap_committed :
    (store_document_embeddings 1 ["alpha", "beta", "gamma"] embedGap true).1 = true ∧
    ((store_document_embeddings 1 ["alpha", "beta", "gamma"] embedGap true).2.map
      (fun e => e.chunk_index)) = [0, 2] := by
  constructor
  · rfl
  · rfl

/-! ## C3 — provider error handling in generate_embedding -/

/-- C3 counterexample: on a provider error, `generate_embedding` does NOT fail
with an `EmbeddingError`; it returns the ordinary value `[]` (the `except`
clause prints and returns an empty list). -/
theorem C3_counterexample :
    generate_embedding (Except.error "connection reset by peer") = ([] : List ℚ) :=
  rfl

/-- C3 amended: on provider error `generate_embedding` returns the empty list
as an in-band failure sentinel (no exception propagates), on success it
returns the provider vector unchanged, and callers detect the sentinel by
emptiness — `similarity_search` returns `[]` without issuing the SQL query
when the query embedding is the sentinel. -/
theorem C3_error_sentinel :
    (∀ e : String, generate_embedding (Except.error e) = []) ∧
    (∀ v : List ℚ, generate_embedding (Except.ok v) = v) ∧
    (∀ (stored : List EmbRow) (limit : Nat) (t : ℚ) (ids : Option (List Nat)),
      similarity_search [] stored limit t ids = (false, [])) :=
  ⟨fun _ => rfl, fun _ => rfl, fun _ _ _ _ => rfl⟩

/-! ## C1 — empty allowed-document-id list -/

/-- C1 counterexample: calling `similarity_search` itself with an EMPTY
`document_ids` list does issue the SQL query (first component `true`) and can
return a non-empty result — Python's `if document_ids:` treats `[]` like
`None`, so no document filter is appended at all.  Row `rowA` (document 7,
similarity 0.9 > threshold 0.7) is returned although the allowed list is
empty. -/
theorem C1_counterexample :
    (similarity_search [1] [rowA] 5 (7 / 10) (some [])).1 = true ∧
    (similarity_search [1] [rowA] 5 (7 / 10) (some [])).2 = [rowA] := by
  constructor
  · rfl
  · norm_num [similarity_search, rowEligible, rowA, List.insertionSort, List.orderedInsert]

/-- C1 amended: the empty-allow-list short-circuit lives in the caller, not in
`similarity_search`: the `/search` endpoint returns an empty result set
without issuing the similarity query whenever the authorized-document-id list
is empty, while `similarity_search` itself treats an empty `document_ids`
list exactly like `None` (no document filter). -/
theorem C1_router_short_circuit :
    (∀ (query_embedding : List ℚ) (stored : List EmbRow) (limit : Nat)
        (similarity_threshold : ℚ),
      search_documents [] query_embedding stored limit similarity_threshold =
        (false, [])) ∧
    (∀ (query_embedding : List ℚ) (stored : List EmbRow) (limit : Nat)
        (similarity_threshold : ℚ),
      similarity_search query_embedding stored limit similarity_threshold (some []) =
        similarity_search query_embedding stored limit similarity_threshold none) :=
  ⟨fun _ _ _ _ => rfl, fun _ _ _ _ => rfl⟩

/-! ## C4 — filter semantics of the similarity query -/

/-- C4 counterexample: with `limit = 1`, both `rowB` and `rowC` pass the
filter (document 1 allowed, similarities 0.9 and 0.8 above threshold 0.6),
yet the query returns only `[rowB]` because of the SQL `LIMIT` — so for an
arbitrary limit the result is NOT exactly the set of eligible rows. -/
theorem C4_counterexample :
    (rowEligible (6 / 10) (some [1]) rowB = true ∧
     rowEligible (6 / 10) (some [1]) rowC = true) ∧
    (similarity_search [1] [rowB, rowC] 1 (6 / 10) (some [1])).2 = [rowB] := by
  refine ⟨⟨?_, ?_⟩, ?_⟩
  · norm_num [rowEligible, rowB]
  · norm_num [rowEligible, rowC]
  · norm_num [similarity_search, rowEligible, rowB, rowC, List.insertionSort,
      List.orderedInsert, simGE]

/-- C4 amended: every returned row passes the WHERE clause (similarity
strictly above the threshold and, for a non-empty allowed list, document id in
it); when the query embedding is non-empty and at most `limit` rows are
eligible, the result is exactly the eligible rows (as a permutation — the
similarity ordering); and the claim's concrete instance: similarities
[0.9, 0.5, 0.8] with threshold 0.6 and limit 5 yield exactly [0.9, 0.8] in
that order. -/
theorem C4_filter_and_rank :
    (∀ (query_embedding : List ℚ) (stored : List EmbRow) (limit : Nat)
        (t : ℚ) (d : Nat) (ds : List Nat) (r : EmbRow),
      r ∈ (similarity_search query_embedding stored limit t (some (d :: ds))).2 →
        t < r.similarity ∧ r.document_id ∈ d :: ds) ∧
    (∀ (query_embedding : List ℚ) (stored : List EmbRow) (limit : Nat)
        (t : ℚ) (document_ids : Option (List Nat)),
      query_embedding ≠ [] →
      (stored.filter (rowEligible t document_ids)).length ≤ limit →
      ((similarity_search query_embedding stored limit t document_ids).2).Perm
        (stored.filter (rowEligible t document_ids))) ∧
    ((similarity_search [1] [rowB, rowD, rowC] 5 (6 / 10) (some [1])).2.map
      (fun r => r.similarity) = [9 / 10, 8 / 10]) := by
  refine ⟨?_, ?_, ?_⟩
  · intro qe stored limit t d ds r hr
    by_cases hqe : qe = []
    · subst hqe
      simp [similarity_search] at hr
    · unfold similarity_search at hr
      rw [if_neg hqe] at hr
      have h2 : r ∈ stored.filter (rowEligible t (some (d :: ds))) :=
        (List.mem_insertionSort simGE).1 (List.take_subset _ _ hr)
      have h3 : rowEligible t (some (d :: ds)) r = true := (List.mem_filter.mp h2).2
      unfold rowEligible at h3
      by_cases ht : t < r.similarity
      · rw [if_pos ht] at h3
        exact ⟨ht, of_decide_eq_true h3⟩
      · rw [if_neg ht] at h3
        exact absurd h3 (by simp)
  · intro qe stored limit t ids hqe hlen
    unfold similarity_search
    rw [if_neg hqe]
    have hperm := List.perm_insertionSort simGE (stored.filter (rowEligible t ids))
    have hlen2 :
        (List.insertionSort simGE (stored.filter (rowEligible t ids))).length ≤ limit := by
      rw [hperm.length_eq]
      exact hlen
    show ((List.insertionSort simGE (stored.filter (rowEligible t ids))).take limit).Perm _
    rw [List.take_of_length_le hlen2]
    exact hperm
  · norm_num [similarity_search, rowEligible, rowB, rowC, rowD, List.insertionSort,
      List.orderedInsert, simGE]

/-- C4 witness: at a concrete input with a non-empty query embedding,
non-empty allowed list and a limit at least the number of eligible rows, the
result is a permutation of the eligible rows. -/
theorem C4_witness :
    ((similarity_search [1] [rowB, rowC] 5 (6 / 10) (some [1])).2).Perm
      ([rowB, rowC].filter (rowEligible (6 / 10) (some [1]))) :=
  C4_filter_and_rank.2.1 [1] [rowB, rowC] 5 (6 / 10) (some [1]) (by decide)
    (le_trans (List.length_filter_le _ _) (by norm_num))

/-! ## C5 — result ordering -/

/-- C5 counterexample: the SQL query orders by `similarity DESC` only — there
is no tie-break clause — so equal-similarity rows come back in whatever order
the engine produces (modelled: stored scan order).  With `rowT1` (document 2)
stored before `rowT2` (document 1), both at similarity 0.9, the result lists
document 2 first, not the lowest document id. -/
theorem C5_counterexample :
    ((similarity_search [1] [rowT1, rowT2] 5 (1 / 2) (some [1, 2])).2.map
      (fun r => r.document_id)) = [2, 1] := by
  norm_num [similarity_search, rowEligible, rowT1, rowT2, List.insertionSort,
    List.orderedInsert, simGE]

/-- C5 amended: the result sequence is sorted in non-increasing similarity
order (`ORDER BY similarity DESC`); nothing orders equal-similarity rows, so
the tie order is the store's, not lowest document id / chunk index. -/
theorem C5_sorted_by_similarity (query_embedding : List ℚ) (stored : List EmbRow)
    (limit : Nat) (similarity_threshold : ℚ) (document_ids : Option (List Nat)) :
    List.Sorted simGE
      (similarity_search query_embedding stored limit similarity_threshold
        document_ids).2 := by
  unfold similarity_search
  split
  · simp
  · exact (List.sorted_insertionSort simGE _).sublist (List.take_sublist _ _)

/-! ## C6 / C7 / C8 — context assembly -/

/-- Token-sum of the empty result list. -/
theorem tokenSum_nil : tokenSum [] = 0 := rfl

/-- Token-sum of a cons. -/
theorem tokenSum_cons (r : EmbRow) (l : List EmbRow) :
    tokenSum (r :: l) = chunkTokens r.content_chunk + tokenSum l := by
  simp [tokenSum]

/-- Invariant of the `combine_chunks_for_context` loop: starting from any
running total within budget, the loop emits the blocks of a prefix of the
input, in order, whose token cost added to the running total stays within
`max_tokens`, and it stops either at the end of the input or right before the
first block that would overshoot. -/
theorem combineLoop_spec (max_tokens : ℚ) (results : List EmbRow) :
    ∀ current : ℚ, current ≤ max_tokens →
    ∃ n, n ≤ results.length ∧
      combineLoop max_tokens results current = (results.take n).map contextBlock ∧
      current + tokenSum (results.take n) ≤ max_tokens ∧
      (n = results.length ∨
        max_tokens < current + tokenSum (results.take (n + 1))) := by
  induction results with
  | nil =>
    intro current h
    refine ⟨0, le_refl 0, rfl, ?_, Or.inl rfl⟩
    simpa [tokenSum] using h
  | cons r rest ih =>
    intro current h
    by_cases hc : max_tokens < current + chunkTokens r.content_chunk
    · refine ⟨0, Nat.zero_le _, ?_, ?_, Or.inr ?_⟩
      · simp [combineLoop, if_pos hc]
      · simpa [tokenSum] using h
      · simpa [List.take_succ_cons, tokenSum_cons, tokenSum_nil] using hc
    · push_neg at hc
      obtain ⟨n, hn, heq, hsum, hlast⟩ := ih (current + chunkTokens r.content_chunk) hc
      refine ⟨n + 1, ?_, ?_, ?_, ?_⟩
      · simpa using Nat.succ_le_succ hn
      · simp [combineLoop, if_neg (not_lt.mpr hc), heq, List.take_succ_cons]
      · rw [List.take_succ_cons, tokenSum_cons]
        linarith
      · rcases hlast with h1 | h2
        · exact Or.inl (by simp [h1])
        · refine Or.inr ?_
          rw [List.take_succ_cons, tokenSum_cons]
          linarith

/-- C6: for any result sequence and non-negative budget,
`combine_chunks_for_context` emits the blocks of a prefix of the results, in
the given order; the prefix's cumulative token estimate never exceeds
`max_tokens`, and the prefix ends either at the end of the input or right
before the first block whose inclusion would push the cumulative estimate
over the budget. -/
theorem C6_greedy_within_budget (search_results : List EmbRow) (max_tokens : ℚ)
    (h : 0 ≤ max_tokens) :
    ∃ n, n ≤ search_results.length ∧
      combine_chunks_for_context search_results max_tokens =
        String.intercalate "\n" ((search_results.take n).map contextBlock) ∧
      tokenSum (search_results.take n) ≤ max_tokens ∧
      (n = search_results.length ∨
        max_tokens < tokenSum (search_results.take (n + 1))) := by
  obtain ⟨n, hn, heq, hsum, hlast⟩ := combineLoop_spec max_tokens search_results 0 h
  refine ⟨n, hn, ?_, ?_, ?_⟩
  · unfold combine_chunks_for_context
    rw [heq]
  · linarith [hsum]
  · rcases hlast with h1 | h2
    · exact Or.inl h1
    · exact Or.inr (by linarith)

/-- C6 witness: two two-word results under a budget of 3 estimated tokens —
the loop keeps a prefix within budget and stops before the overshooting
block. -/
theorem C6_witness :
    ∃ n, n ≤ [rowW1, rowW2].length ∧
      combine_chunks_for_context [rowW1, rowW2] 3 =
        String.intercalate "\n" (([rowW1, rowW2].take n).map contextBlock) ∧
      tokenSum ([rowW1, rowW2].take n) ≤ 3 ∧
      (n = [rowW1, rowW2].length ∨ (3 : ℚ) < tokenSum ([rowW1, rowW2].take (n + 1))) :=
  C6_greedy_within_budget [rowW1, rowW2] 3 (by norm_num)

/-- C7 counterexample: a non-empty result sequence whose first chunk text is
empty estimates to 0 tokens, so at `max_tokens = 0` the block is still
included and the output is NOT the empty string. -/
theorem C7_counterexample :
    combine_chunks_for_context [rowE] 0 ≠ "" ∧
    combine_chunks_for_context [rowE] 0 = "Document: Doc E\nContent: \n---\n" := by
  have hct : chunkTokens "" = 0 := by
    norm_num [chunkTokens, pyWordCount, pyWords]
  have h0 : combineLoop 0 [rowE] 0 = [contextBlock rowE] := by
    simp [combineLoop, rowE, hct]
  have h1 : combine_chunks_for_context [rowE] 0 =
      String.intercalate "\n" [contextBlock rowE] := by
    unfold combine_chunks_for_context
    rw [h0]
  rw [h1]
  constructor
  · decide
  · decide

/-- C7 amended: the assembler returns `""` for an empty result sequence, and
for a non-empty sequence whenever the budget is strictly below the first
block's token estimate (in particular at budget 0 when the first chunk
contains at least one word).  A first chunk with no words estimates to 0
tokens and is included even at budget 0, so the unconditional budget-0 part
of the claim fails. -/
theorem C7_empty_output_cases :
    (∀ max_tokens : ℚ, combine_chunks_for_context [] max_tokens = "") ∧
    (∀ (r : EmbRow) (rest : List EmbRow) (max_tokens : ℚ),
      max_tokens < chunkTokens r.content_chunk →
      combine_chunks_for_context (r :: rest) max_tokens = "") := by
  constructor
  · intro m
    rfl
  · intro r rest m hm
    unfold combine_chunks_for_context
    have h0 : combineLoop m (r :: rest) 0 = [] := by
      simp [combineLoop, hm]
    rw [h0]
    rfl

/-- C7 witness: a one-word-per-chunk result at budget 1 (below the first
block's 2.6-token estimate) yields the empty string. -/
theorem C7_witness : combine_chunks_for_context [rowW1] 1 = "" :=
  C7_empty_output_cases.2 rowW1 [] 1 (by
    have h2 : pyWordCount "alpha beta" = 2 := by decide
    norm_num [chunkTokens, rowW1, h2])

/-- C8 counterexample: the estimate is word-count based, so it is NOT monotone
in text length: `"cccc"` is longer than `"a b"` but has one word against two,
hence a strictly lower estimate (1.3 < 2.6). -/
theorem C8_counterexample :
    ("a b" : String).length < ("cccc" : String).length ∧
    chunkTokens "cccc" < chunkTokens "a b" := by
  constructor
  · decide
  · have h1 : pyWordCount "cccc" = 1 := by decide
    have h2 : pyWordCount "a b" = 2 := by decide
    norm_num [chunkTokens, h1, h2]

/-- C8 amended: the token estimate is deterministic (a pure function of the
chunk text) and monotone in the whitespace-separated word count — more words
never yield a lower estimate — though not in raw text length. -/
theorem C8_estimator_monotone_in_words :
    (∀ s t : String, s = t → chunkTokens s = chunkTokens t) ∧
    (∀ s t : String, pyWordCount s ≤ pyWordCount t → chunkTokens s ≤ chunkTokens t) := by
  constructor
  · intro s t h
    rw [h]
  · intro s t h
    unfold chunkTokens
    have hc : (pyWordCount s : ℚ) ≤ (pyWordCount t : ℚ) := Nat.cast_le.mpr h
    have hnn : (0 : ℚ) ≤ 13 / 10 := by norm_num
    exact mul_le_mul_of_nonneg_right hc hnn

/-- C8 witness: one word versus two words — the estimate does not decrease. -/
theorem C8_witness : chunkTokens "a" ≤ chunkTokens "b c" :=
  C8_estimator_monotone_in_words.2 "a" "b c" (by decide)

end RagService
